import Mathlib

/-!
Shallow embedding of the Endpoint Health & Selection Registry from
`src/network/connectivity.py`.

Time is modelled as an explicit integer-valued logical clock passed to each
operation (the Python code calls `time.time()` at each site).  Network I/O is
modelled by probe oracles: a probe function receives the abstract outcome of
the I/O (response status / timeout / connection error / other exception) and
the elapsed time, and computes the result exactly as the source does.
-/

/-- Result record of one probe, mirroring the Python dataclass
`EndpointStatus` in `src/network/connectivity.py`. -/
structure EndpointStatus where
  name : String
  kind : String
  target : String
  reachable : Bool
  latency_ms : Option ℚ
  error : Option String
  timestamp : ℤ
deriving DecidableEq

/-- A sweep result: Python dict from endpoint name to `EndpointStatus`,
modelled as an association list in insertion order. -/
abbrev SweepResult := List (String × EndpointStatus)

/-- Mirror of the two maps held by the Python `ConnectivityRegistry`
singleton: `_results` and `_last_check_time`, each keyed by environment. -/
structure ConnectivityRegistry where
  results : String → Option SweepResult
  last_check_time : String → Option ℤ

/-- `_check_interval = 300.0` in `ConnectivityRegistry.__init__`. -/
def checkInterval : ℤ := 300

/-- `_max_cache_age = 1800.0` in `ConnectivityRegistry.__init__`. -/
def maxCacheAge : ℤ := 1800

/-- The freshly constructed registry: both dicts empty. -/
def emptyRegistry : ConnectivityRegistry :=
  { results := fun _ => none, last_check_time := fun _ => none }

/-- `ConnectivityRegistry.set_results`: store the sweep result for `env` and
stamp the current time. -/
def ConnectivityRegistry.set_results (r : ConnectivityRegistry) (env : String)
    (res : SweepResult) (now : ℤ) : ConnectivityRegistry :=
  { results := fun e => if e = env then some res else r.results e,
    last_check_time := fun e => if e = env then some now else r.last_check_time e }

/-- `ConnectivityRegistry.clear_environment_cache`: delete both dict entries
for `env`. -/
def ConnectivityRegistry.clear_environment_cache (r : ConnectivityRegistry)
    (env : String) : ConnectivityRegistry :=
  { results := fun e => if e = env then none else r.results e,
    last_check_time := fun e => if e = env then none else r.last_check_time e }

/-- `ConnectivityRegistry.clear_cache`: clear both dicts entirely. -/
def ConnectivityRegistry.clear_cache (_r : ConnectivityRegistry) : ConnectivityRegistry :=
  emptyRegistry

/-- `ConnectivityRegistry.get_results`: return the stored results; if a
timestamp exists and the age exceeds `_max_cache_age`, evict the entry and
return the empty dict.  The possibly-mutated registry is returned alongside
the value (the Python method mutates `self`). -/
def ConnectivityRegistry.get_results (r : ConnectivityRegistry) (env : String)
    (now : ℤ) : SweepResult × ConnectivityRegistry :=
  match r.results env with
  | none => ([], r)
  | some res =>
    match r.last_check_time env with
    | some t =>
      if now - t > maxCacheAge then ([], r.clear_environment_cache env)
      else (res, r)
    | none => (res, r)

/-- `ConnectivityRegistry.is_cache_valid`: both dict entries exist and the age
is at most `_max_cache_age`. -/
def ConnectivityRegistry.is_cache_valid (r : ConnectivityRegistry) (env : String)
    (now : ℤ) : Bool :=
  match r.results env, r.last_check_time env with
  | some _, some t => decide (now - t ≤ maxCacheAge)
  | _, _ => false

/-- `ConnectivityRegistry.should_recheck`: true when no timestamp exists, or
the time since the last check is at least `_check_interval`. -/
def ConnectivityRegistry.should_recheck (r : ConnectivityRegistry) (env : String)
    (now : ℤ) : Bool :=
  match r.last_check_time env with
  | none => true
  | some t => decide (now - t ≥ checkInterval)

/-- Return value of `ConnectivityRegistry.get_cache_info`.  The Python method
returns a dict; the `should_recheck` key is absent in one branch, which we
model with `Option Bool` (`none` = key absent from the returned dict). -/
structure CacheInfo where
  cached : Bool
  age : Option ℤ
  valid : Bool
  should_recheck : Option Bool
deriving DecidableEq

/-- `ConnectivityRegistry.get_cache_info`: diagnostic snapshot.  Note that the
no-entry branch of the source returns a dict with only the `cached`, `age`
and `valid` keys. -/
def ConnectivityRegistry.get_cache_info (r : ConnectivityRegistry) (env : String)
    (now : ℤ) : CacheInfo :=
  match r.last_check_time env with
  | none => { cached := false, age := none, valid := false, should_recheck := none }
  | some t =>
    { cached := true,
      age := some (now - t),
      valid := r.is_cache_valid env now,
      should_recheck := some (r.should_recheck env now) }

/-- Models Python `str.lower()` (ASCII range; every string in this module is
ASCII). -/
def charLower (c : Char) : Char :=
  if 65 ≤ c.toNat ∧ c.toNat ≤ 90 then Char.ofNat (c.toNat + 32) else c

/-- Models Python `str.lower()` on whole strings. -/
def strToLower (s : String) : String := ⟨s.toList.map charLower⟩

/-- `_parse_host_port`: split on the first `:`; on a non-integer port fall
back to `(address, 443)`; with no `:` return `(address, 443)`. -/
def _parse_host_port (address : String) : String × Int :=
  match address.splitOn ":" with
  | [] => (address, 443)
  | [_] => (address, 443)
  | host :: rest =>
    match (String.intercalate ":" rest).toInt? with
    | some p => (host, p)
    | none => (address, 443)

/-- `build_injective_endpoints`: the Endpoint Catalog.  Maps an environment
name to `name -> (kind, target)`.  The Python `environment or "testnet"`
treats the empty string as falsy. -/
def build_injective_endpoints (environment : String) : List (String × String × String) :=
  let env := strToLower (if environment = "" then "testnet" else environment)
  if env = "testnet" then
    [("lcd", ("http", "https://testnet.lcd.injective.network")),
     ("grpc", ("tcp", "testnet.grpc.injective.network:443"))]
  else
    [("lcd", ("http", "https://lcd.injective.network")),
     ("grpc", ("tcp", "grpc.injective.network:443"))]

/-- Models the Python substring test `needle in hay`. -/
def strContains (hay needle : String) : Bool :=
  decide (needle.toList <:+: hay.toList)

/-- Abstract outcome of the HTTP request issued by `_check_http`: either a
response with a status code, or one of the three caught exception classes. -/
inductive HttpOutcome where
  | response (status : Nat)
  | timedOut
  | connError (msg : String)
  | otherExc (msg : String)
deriving DecidableEq

/-- `_check_http`: given the outcome of the request and the elapsed
milliseconds, compute `(ok, latency_ms, error)` exactly as the source does:
`ok = status < 500`, then forced to true for status 404/501 when the
lower-cased URL contains `"lcd"`, and for status 405 when it contains
`"tm"`; each caught exception yields `(false, latency, message)`. -/
def _check_http (url : String) (outcome : HttpOutcome) (elapsed : ℚ) :
    Bool × Option ℚ × Option String :=
  match outcome with
  | .response status =>
    let ok := decide (status < 500)
    let ok := if strContains (strToLower url) "lcd" && (status == 404 || status == 501)
              then true else ok
    let ok := if strContains (strToLower url) "tm" && status == 405 then true else ok
    (ok, some elapsed, none)
  | .timedOut => (false, some elapsed, some "Timeout")
  | .connError msg => (false, some elapsed, some ("Connection error: " ++ msg))
  | .otherExc msg => (false, some elapsed, some msg)

/-- Abstract outcome of the DNS-resolve-and-connect performed by
`_check_tcp`: success, or any exception (all are caught by one handler). -/
inductive TcpOutcome where
  | success
  | exc (msg : String)
deriving DecidableEq

/-- `_check_tcp`: success yields `(true, latency, none)`; every exception is
caught and yields `(false, latency, message)`. -/
def _check_tcp (address : String) (outcome : TcpOutcome) (elapsed : ℚ) :
    Bool × Option ℚ × Option String :=
  let _hostPort := _parse_host_port address
  match outcome with
  | .success => (true, some elapsed, none)
  | .exc msg => (false, some elapsed, some msg)

/-- A probe oracle: what a probe call returns for a given target.  Probes are
total (they never raise past their boundary), so the oracle yields the
`(ok, latency_ms, error)` triple directly. -/
abbrev Probe := String → Bool × Option ℚ × Option String

/-- `check_injective_connectivity` (the Connectivity Sweep): look up the
Catalog, run one probe per descriptor (`kind` selects the probe function),
build one `EndpointStatus` per descriptor, and unconditionally store the
result in the registry stamped with the current time. -/
def check_injective_connectivity (environment : String)
    (probe_http probe_tcp : Probe) (now : ℤ) (registry : ConnectivityRegistry) :
    SweepResult × ConnectivityRegistry :=
  let endpoints := build_injective_endpoints environment
  let results : SweepResult := endpoints.map (fun p =>
    let name := p.1
    let kind := p.2.1
    let target := p.2.2
    let r := if kind = "http" then probe_http target else probe_tcp target
    (name, { name := name, kind := kind, target := target,
             reachable := r.1, latency_ms := r.2.1, error := r.2.2,
             timestamp := now }))
  (results, registry.set_results environment results now)

/-- `check_injective_connectivity_sync`: the synchronous wrapper.  The
event-loop/threading machinery may itself fail, in which case the wrapper
returns an `{"error": ...}` dict and the registry is not written; otherwise
it runs the sweep.  `syncError` abstracts that external failure mode. -/
def check_injective_connectivity_sync (environment : String)
    (probe_http probe_tcp : Probe) (syncError : Option String) (now : ℤ)
    (registry : ConnectivityRegistry) :
    Except String SweepResult × ConnectivityRegistry :=
  match syncError with
  | some e => (.error e, registry)
  | none =>
    let sw := check_injective_connectivity environment probe_http probe_tcp now registry
    (.ok sw.1, sw.2)

/-- `_get_default_endpoints`: the hardcoded fallback map. -/
def _get_default_endpoints (environment : String) : List (String × String) :=
  if strToLower environment = "testnet" then
    [("lcd", "https://testnet.lcd.injective.network"),
     ("grpc", "testnet.grpc.injective.network:9900")]
  else
    [("lcd", "https://lcd.injective.network"),
     ("grpc", "grpc.injective.network:9900")]

/-- The reachable-endpoint filter done inline (twice) by
`get_best_endpoints`: keep `{name: target}` for each reachable status. -/
def filter_reachable (rs : SweepResult) : List (String × String) :=
  rs.filterMap (fun p => if p.2.reachable then some (p.1, p.2.target) else none)

/-- Lines 303-313 of `get_best_endpoints`: when the cached results are
non-empty and the cache is valid, filter to reachable endpoints and, if any
remain, pick them (`some`); otherwise fall through (`none`). -/
def cached_pick (cached_results : SweepResult) (valid : Bool) :
    Option (List (String × String)) :=
  if !cached_results.isEmpty && valid then
    let available := filter_reachable cached_results
    if available.isEmpty then none else some available
  else none

/-- `get_best_endpoints`: use the cached sweep when it is valid and yields
reachable endpoints; otherwise run a fresh synchronous sweep and filter it;
if that still yields nothing (or the sweep errored), return the hardcoded
defaults.  Returns the chosen map together with the updated registry. -/
def get_best_endpoints (environment : String) (probe_http probe_tcp : Probe)
    (syncError : Option String) (now : ℤ) (registry : ConnectivityRegistry) :
    List (String × String) × ConnectivityRegistry :=
  let gr := registry.get_results environment now
  let cached_results := gr.1
  let registry1 := gr.2
  match cached_pick cached_results (registry1.is_cache_valid environment now) with
  | some available => (available, registry1)
  | none =>
    match check_injective_connectivity_sync environment probe_http probe_tcp
            syncError now registry1 with
    | (.ok results, registry2) =>
      let available := filter_reachable results
      if available.isEmpty then (_get_default_endpoints environment, registry2)
      else (available, registry2)
    | (.error _, registry2) => (_get_default_endpoints environment, registry2)

/-- `validate_endpoint_availability`: probe `endpoint_url` directly (HTTP
when the type is `"lcd"` or the URL contains `"http"`, else TCP).  On
success return `true`.  On failure — or on an exception, which the source
handles the same way — clear the environment's cache, re-run the sweep, and
return whether the new sweep holds a reachable endpoint named
`endpoint_type`.  The direct probe's outcome is modelled as `Except`: the
`.error` case is the `except Exception` branch of the source. -/
def validate_endpoint_availability (environment endpoint_type endpoint_url : String)
    (directHttp directTcp : String → Except String (Bool × Option ℚ × Option String))
    (probe_http probe_tcp : Probe) (now : ℤ) (registry : ConnectivityRegistry) :
    Bool × ConnectivityRegistry :=
  let directProbe :=
    if endpoint_type = "lcd" || strContains (strToLower endpoint_url) "http" then
      directHttp endpoint_url
    else
      directTcp endpoint_url
  match directProbe with
  | .ok r =>
    if r.1 then (true, registry)
    else
      let registry1 := registry.clear_environment_cache environment
      let sw := check_injective_connectivity environment probe_http probe_tcp now registry1
      (sw.1.any (fun p => p.1 == endpoint_type && p.2.reachable), sw.2)
  | .error _ =>
    let registry1 := registry.clear_environment_cache environment
    let sw := check_injective_connectivity environment probe_http probe_tcp now registry1
    (sw.1.any (fun p => p.1 == endpoint_type && p.2.reachable), sw.2)

/-- One registry operation, for reasoning about arbitrary call sequences
against the `ConnectivityRegistry` singleton. -/
inductive RegistryOp where
  | setRes (env : String) (res : SweepResult) (now : ℤ)
  | getRes (env : String) (now : ℤ)
  | clearAll
  | clearEnv (env : String)

/-- Apply one registry operation to the registry state (the value returned
by `get_results` is discarded; only its state effect matters here). -/
def applyOp (r : ConnectivityRegistry) : RegistryOp → ConnectivityRegistry
  | .setRes env res now => r.set_results env res now
  | .getRes env now => (r.get_results env now).2
  | .clearAll => r.clear_cache
  | .clearEnv env => r.clear_environment_cache env

/-- Apply a sequence of registry operations starting from a state. -/
def applyOps (r : ConnectivityRegistry) (ops : List RegistryOp) : ConnectivityRegistry :=
  ops.foldl applyOp r

/-- The key-set invariant: an environment has stored results exactly when it
has a stored last-check timestamp. -/
def keysAligned (r : ConnectivityRegistry) : Prop :=
  ∀ env, (r.results env).isSome ↔ (r.last_check_time env).isSome

/-- A sample reachable probe status, used to instantiate theorems on
concrete inputs. -/
def sampleStatus : EndpointStatus :=
  { name := "lcd", kind := "http",
    target := "https://testnet.lcd.injective.network",
    reachable := true, latency_ms := some 42, error := none, timestamp := 0 }

/-- A sample one-entry sweep result. -/
def sampleSweep : SweepResult := [("lcd", sampleStatus)]

/-- A probe oracle whose every probe fails. -/
def failingProbe : Probe := fun _ => (false, some 5, some "connection refused")

/-- A probe oracle whose every probe succeeds. -/
def succeedingProbe : Probe := fun _ => (true, some 42, none)

/-- C4: every failure mode of either probe (timeout, connection error, any
other exception for HTTP; any exception for TCP, including DNS failures and
refused connections) is returned as a normal `(false, latency, error)`
triple, with the elapsed-until-failure latency present and an error string
present — probes are total functions and never raise past their boundary. -/
theorem probes_capture_all_failures :
    (∀ (url : String) (elapsed : ℚ),
        _check_http url .timedOut elapsed = (false, some elapsed, some "Timeout")) ∧
    (∀ (url msg : String) (elapsed : ℚ),
        _check_http url (.connError msg) elapsed
          = (false, some elapsed, some ("Connection error: " ++ msg))) ∧
    (∀ (url msg : String) (elapsed : ℚ),
        _check_http url (.otherExc msg) elapsed = (false, some elapsed, some msg)) ∧
    (∀ (address msg : String) (elapsed : ℚ),
        _check_tcp address (.exc msg) elapsed = (false, some elapsed, some msg)) :=
  ⟨fun _ _ => rfl, fun _ _ _ => rfl, fun _ _ _ => rfl, fun _ _ _ => rfl⟩

/-- C2 counterexample: the unknown environment string `"foo"` does not get
the `"testnet"` catalog — it takes the `else` branch and gets the mainnet
catalog. -/
theorem build_injective_endpoints_foo_ne_testnet :
    build_injective_endpoints "foo" ≠ build_injective_endpoints "testnet" := by
  decide

/-- C2 amended: any environment string that does not normalize (empty string
to `"testnet"`, then lower-casing) to `"testnet"` gets the same endpoint map
as `"mainnet"` — the `else` branch of the catalog — and the catalog is a
total function, never raising for any input string. -/
theorem build_injective_endpoints_unknown_env (E : String)
    (h : strToLower (if E = "" then "testnet" else E) ≠ "testnet") :
    build_injective_endpoints E = build_injective_endpoints "mainnet" := by
  have hm : build_injective_endpoints "mainnet"
      = [("lcd", ("http", "https://lcd.injective.network")),
         ("grpc", ("tcp", "grpc.injective.network:443"))] := by decide
  rw [hm]
  unfold build_injective_endpoints
  simp only []
  rw [if_neg h]

/-- C2 amended witness: at the concrete unknown environment `"foo"`. -/
theorem build_injective_endpoints_unknown_env_witness :
    build_injective_endpoints "foo" = build_injective_endpoints "mainnet" :=
  build_injective_endpoints_unknown_env "foo" (by decide)

/-- C3 counterexample: a 501 response on a URL that does not contain
`"lcd"` is reported unreachable, although the claim says 501 is reachable
regardless of which URL was probed. -/
theorem check_http_501_unreachable_without_lcd :
    (_check_http "https://x.example" (.response 501) 7).1 = false := by decide

/-- C3 amended: a response is reported reachable exactly when its status is
below 500, or the status is 404 or 501 and the lower-cased URL contains
`"lcd"`, or the status is 405 and the lower-cased URL contains `"tm"` (the
404 and 405 cases are already below 500, so only the 501-with-"lcd" case
extends the below-500 rule). -/
theorem check_http_reachable_iff (url : String) (status : Nat) (elapsed : ℚ) :
    (_check_http url (.response status) elapsed).1 = true ↔
      (status < 500
        ∨ (strContains (strToLower url) "lcd" = true ∧ (status = 404 ∨ status = 501))
        ∨ (strContains (strToLower url) "tm" = true ∧ status = 405)) := by
  unfold _check_http
  cases hlcd : strContains (strToLower url) "lcd" <;>
    cases htm : strContains (strToLower url) "tm" <;>
      simp [hlcd, htm] <;> omega

/-- C6: after `set_results(E, R)` at time `t`, `get_results(E)` at time
`now` returns exactly `R` (leaving the registry untouched) as long as the
age `now - t` is at most `max_cache_age`; once the age exceeds
`max_cache_age` it returns the empty dict and evicts the entry (both the
results and the timestamp are deleted), with no explicit invalidate call. -/
theorem registry_set_get_roundtrip (r : ConnectivityRegistry) (env : String)
    (R : SweepResult) (t now : ℤ) :
    (now - t ≤ maxCacheAge →
      ((r.set_results env R t).get_results env now).1 = R ∧
      ((r.set_results env R t).get_results env now).2 = r.set_results env R t) ∧
    (now - t > maxCacheAge →
      ((r.set_results env R t).get_results env now).1 = [] ∧
      ((r.set_results env R t).get_results env now).2.results env = none ∧
      ((r.set_results env R t).get_results env now).2.last_check_time env = none) := by
  have hres : (r.set_results env R t).results env = some R := by
    simp [ConnectivityRegistry.set_results]
  have htime : (r.set_results env R t).last_check_time env = some t := by
    simp [ConnectivityRegistry.set_results]
  unfold ConnectivityRegistry.get_results
  rw [hres, htime]
  dsimp only
  constructor
  · intro h
    rw [if_neg (not_lt.mpr h)]
    exact ⟨rfl, rfl⟩
  · intro h
    rw [if_pos h]
    exact ⟨rfl, by simp [ConnectivityRegistry.clear_environment_cache],
           by simp [ConnectivityRegistry.clear_environment_cache]⟩

/-- C6 witness: the round-trip at age 100 and the eviction at age 2000, on
a concrete registry. -/
theorem registry_set_get_roundtrip_witness :
    ((emptyRegistry.set_results "testnet" sampleSweep 0).get_results "testnet" 100).1
      = sampleSweep ∧
    ((emptyRegistry.set_results "testnet" sampleSweep 0).get_results "testnet" 2000).1
      = [] ∧
    ((emptyRegistry.set_results "testnet" sampleSweep 0).get_results "testnet" 2000).2.results
      "testnet" = none :=
  ⟨((registry_set_get_roundtrip emptyRegistry "testnet" sampleSweep 0 100).1
      (by decide)).1,
   ((registry_set_get_roundtrip emptyRegistry "testnet" sampleSweep 0 2000).2
      (by decide)).1,
   ((registry_set_get_roundtrip emptyRegistry "testnet" sampleSweep 0 2000).2
      (by decide)).2.1⟩

/-- C7: `should_recheck(E)` is true when no timestamp is recorded; when a
timestamp `s` is recorded it is true exactly when the age `now - s` is at
least `check_interval`; in particular it is false at the instant of a
`set_results` and true exactly once the age reaches `check_interval`
(boundary included), independently of entry validity. -/
theorem should_recheck_spec (r : ConnectivityRegistry) (env : String)
    (R : SweepResult) (t now : ℤ) :
    (r.last_check_time env = none → r.should_recheck env now = true) ∧
    (∀ s : ℤ, r.last_check_time env = some s →
      (r.should_recheck env now = true ↔ now - s ≥ checkInterval)) ∧
    ((r.set_results env R t).should_recheck env t = false) ∧
    ((r.set_results env R t).should_recheck env (t + checkInterval) = true) := by
  refine ⟨?_, ?_, ?_, ?_⟩
  · intro h
    unfold ConnectivityRegistry.should_recheck
    rw [h]
  · intro s hs
    unfold ConnectivityRegistry.should_recheck
    rw [hs]
    simp
  · have htime : (r.set_results env R t).last_check_time env = some t := by
      simp [ConnectivityRegistry.set_results]
    unfold ConnectivityRegistry.should_recheck
    rw [htime]
    simp [checkInterval]
  · have htime : (r.set_results env R t).last_check_time env = some t := by
      simp [ConnectivityRegistry.set_results]
    unfold ConnectivityRegistry.should_recheck
    rw [htime]
    simp

/-- C7 witness: on a concrete registry, `should_recheck` holds with no
entry, is false right after a `set_results` at time 0, is still false at age
299, and becomes true at ages 300 and 400. -/
theorem should_recheck_spec_witness :
    emptyRegistry.should_recheck "testnet" 0 = true ∧
    (emptyRegistry.set_results "testnet" sampleSweep 0).should_recheck "testnet" 0 = false ∧
    (emptyRegistry.set_results "testnet" sampleSweep 0).should_recheck "testnet"
      (0 + checkInterval) = true ∧
    (emptyRegistry.set_results "testnet" sampleSweep 0).should_recheck "testnet" 400 = true :=
  ⟨(should_recheck_spec emptyRegistry "testnet" sampleSweep 0 0).1 rfl,
   (should_recheck_spec emptyRegistry "testnet" sampleSweep 0 0).2.2.1,
   (should_recheck_spec emptyRegistry "testnet" sampleSweep 0 0).2.2.2,
   ((should_recheck_spec (emptyRegistry.set_results "testnet" sampleSweep 0) "testnet"
       sampleSweep 0 400).2.1 0 (by decide)).mpr (by decide)⟩

/-- C9 counterexample: when no entry exists, `get_cache_info` returns a dict
without the `should_recheck` key (modelled as the field being `none`), so
the record does not contain all four fields in that case. -/
theorem get_cache_info_missing_field_when_uncached :
    (emptyRegistry.get_cache_info "testnet" 0).should_recheck = none := by decide

/-- C9 amended: when an entry exists, `get_cache_info` carries all four
fields (`cached = true`, the exact age, `valid`, and a present
`should_recheck`); when no entry exists it returns only
`{cached: false, age: null, valid: false}` with the `should_recheck` key
absent; and immediately after a sweep it reports `cached = true`, age `0`,
`valid = true`, `should_recheck = false`. -/
theorem get_cache_info_spec (r : ConnectivityRegistry) (env : String)
    (now t : ℤ) (p q : Probe) :
    (∀ s : ℤ, r.last_check_time env = some s →
      r.get_cache_info env now =
        { cached := true, age := some (now - s),
          valid := r.is_cache_valid env now,
          should_recheck := some (r.should_recheck env now) }) ∧
    (r.last_check_time env = none →
      r.get_cache_info env now =
        { cached := false, age := none, valid := false, should_recheck := none }) ∧
    ((check_injective_connectivity env p q t r).2.get_cache_info env t =
        { cached := true, age := some 0, valid := true, should_recheck := some false }) := by
  refine ⟨?_, ?_, ?_⟩
  · intro s hs
    unfold ConnectivityRegistry.get_cache_info
    rw [hs]
  · intro h
    unfold ConnectivityRegistry.get_cache_info
    rw [h]
  · have hres : (check_injective_connectivity env p q t r).2.results env
        = some (check_injective_connectivity env p q t r).1 := by
      simp [check_injective_connectivity, ConnectivityRegistry.set_results]
    have htime : (check_injective_connectivity env p q t r).2.last_check_time env
        = some t := by
      simp [check_injective_connectivity, ConnectivityRegistry.set_results]
    unfold ConnectivityRegistry.get_cache_info
    rw [htime]
    unfold ConnectivityRegistry.is_cache_valid ConnectivityRegistry.should_recheck
    rw [hres, htime]
    simp [maxCacheAge, checkInterval]

/-- C9 amended witness: on a concrete registry with an entry stamped at time
0 and queried at time 10, and after a concrete sweep. -/
theorem get_cache_info_spec_witness :
    (emptyRegistry.set_results "testnet" sampleSweep 0).get_cache_info "testnet" 10 =
      { cached := true, age := some 10, valid := true, should_recheck := some false } ∧
    emptyRegistry.get_cache_info "testnet" 10 =
      { cached := false, age := none, valid := false, should_recheck := none } ∧
    (check_injective_connectivity "testnet" succeedingProbe failingProbe 0
        emptyRegistry).2.get_cache_info "testnet" 0 =
      { cached := true, age := some 0, valid := true, should_recheck := some false } := by
  refine ⟨?_, ?_, ?_⟩
  · have h := (get_cache_info_spec (emptyRegistry.set_results "testnet" sampleSweep 0)
      "testnet" 10 0 succeedingProbe failingProbe).1 0 (by decide)
    rw [h]
    decide
  · exact (get_cache_info_spec emptyRegistry "testnet" 10 0 succeedingProbe
      failingProbe).2.1 rfl
  · exact (get_cache_info_spec emptyRegistry "testnet" 0 0 succeedingProbe
      failingProbe).2.2

/-- C5: a sweep for any environment returns one `EndpointStatus` per Catalog
descriptor — the result's keys are exactly the Catalog's keys, and every
status carries its own key as `name` and the sweep instant as `timestamp` —
regardless of the probe outcomes, and it unconditionally stores that exact
result in the registry for the environment stamped with the current time. -/
theorem sweep_covers_catalog (env : String) (p q : Probe) (now : ℤ)
    (r : ConnectivityRegistry) :
    ((check_injective_connectivity env p q now r).1.map Prod.fst
      = (build_injective_endpoints env).map Prod.fst) ∧
    (∀ e ∈ (check_injective_connectivity env p q now r).1,
      e.2.name = e.1 ∧ e.2.timestamp = now) ∧
    ((check_injective_connectivity env p q now r).2.results env
      = some (check_injective_connectivity env p q now r).1) ∧
    ((check_injective_connectivity env p q now r).2.last_check_time env = some now) := by
  refine ⟨?_, ?_, ?_, ?_⟩
  · simp [check_injective_connectivity, List.map_map, Function.comp]
  · intro e he
    simp only [check_injective_connectivity, List.mem_map] at he
    obtain ⟨x, _, rfl⟩ := he
    exact ⟨rfl, rfl⟩
  · simp [check_injective_connectivity, ConnectivityRegistry.set_results]
  · simp [check_injective_connectivity, ConnectivityRegistry.set_results]

/-- C5 witness: the concrete testnet sweep with a succeeding HTTP probe and
a failing TCP probe covers exactly the catalog keys `lcd` and `grpc`, and
its first entry is well-formed. -/
theorem sweep_covers_catalog_witness :
    ((check_injective_connectivity "testnet" succeedingProbe failingProbe 0
        emptyRegistry).1.map Prod.fst = ["lcd", "grpc"]) ∧
    ("lcd", sampleStatus).2.name = "lcd" :=
  ⟨(sweep_covers_catalog "testnet" succeedingProbe failingProbe 0 emptyRegistry).1.trans
      (by decide),
   ((sweep_covers_catalog "testnet" succeedingProbe failingProbe 0 emptyRegistry).2.1
      ("lcd", sampleStatus) (by decide)).1⟩

/-- Each single registry operation preserves the key-set invariant. -/
theorem keysAligned_applyOp {r : ConnectivityRegistry} (h : keysAligned r)
    (op : RegistryOp) : keysAligned (applyOp r op) := by
  cases op with
  | setRes env res now =>
    intro e
    by_cases he : e = env <;>
      simp [applyOp, ConnectivityRegistry.set_results, he, h e]
  | getRes env now =>
    intro e
    dsimp only [applyOp]
    unfold ConnectivityRegistry.get_results
    cases hres : r.results env with
    | none => exact h e
    | some res =>
      cases htime : r.last_check_time env with
      | none => exact h e
      | some t =>
        dsimp only
        by_cases hage : now - t > maxCacheAge
        · rw [if_pos hage]
          by_cases he : e = env <;>
            simp [ConnectivityRegistry.clear_environment_cache, he, h e]
        · rw [if_neg hage]
          exact h e
  | clearAll =>
    intro e
    simp [applyOp, ConnectivityRegistry.clear_cache, emptyRegistry]
  | clearEnv env =>
    intro e
    by_cases he : e = env <;>
      simp [applyOp, ConnectivityRegistry.clear_environment_cache, he, h e]

/-- Invariant preservation across whole operation sequences. -/
theorem keysAligned_applyOps {r : ConnectivityRegistry} (h : keysAligned r)
    (ops : List RegistryOp) : keysAligned (applyOps r ops) := by
  induction ops generalizing r with
  | nil => exact h
  | cons op rest ih => exact ih (keysAligned_applyOp h op)

/-- C10: starting from the freshly constructed registry, any sequence of
`set_results` / `get_results` / `clear_cache` / `clear_environment_cache`
operations keeps the results map and the last-check-time map on exactly the
same key set; consequently, whenever `get_results` returns a non-empty
stored result, a timestamp existed for the environment and the age check
`now - t ≤ max_cache_age` was performed and passed. -/
theorem registry_keys_invariant :
    (∀ ops : List RegistryOp, keysAligned (applyOps emptyRegistry ops)) ∧
    (∀ (r : ConnectivityRegistry) (env : String) (now : ℤ),
      keysAligned r → (r.get_results env now).1 ≠ [] →
      ∃ t : ℤ, r.last_check_time env = some t ∧ now - t ≤ maxCacheAge) := by
  constructor
  · intro ops
    exact keysAligned_applyOps (fun e => by simp [emptyRegistry]) ops
  · intro r env now h hne
    unfold ConnectivityRegistry.get_results at hne
    cases hres : r.results env with
    | none => rw [hres] at hne; exact absurd rfl hne
    | some res =>
      rw [hres] at hne
      cases htime : r.last_check_time env with
      | none =>
        have := h env
        rw [hres, htime] at this
        simp at this
      | some t =>
        rw [htime] at hne
        dsimp only at hne
        by_cases hage : now - t > maxCacheAge
        · rw [if_pos hage] at hne
          exact absurd rfl hne
        · exact ⟨t, rfl, not_lt.mp hage⟩

/-- C10 witness: a concrete operation sequence keeps the key sets aligned,
and a concrete aligned registry returning a non-empty result passed its
age check. -/
theorem registry_keys_invariant_witness :
    keysAligned (applyOps emptyRegistry
      [.setRes "testnet" sampleSweep 0, .getRes "testnet" 2000, .clearEnv "mainnet"]) ∧
    ∃ t : ℤ,
      (emptyRegistry.set_results "testnet" sampleSweep 0).last_check_time "testnet"
        = some t ∧ (100 : ℤ) - t ≤ maxCacheAge :=
  ⟨registry_keys_invariant.1
      [.setRes "testnet" sampleSweep 0, .getRes "testnet" 2000, .clearEnv "mainnet"],
   registry_keys_invariant.2 (emptyRegistry.set_results "testnet" sampleSweep 0)
      "testnet" 100
      (fun e => by by_cases he : e = "testnet" <;>
        simp [ConnectivityRegistry.set_results, emptyRegistry, he])
      (by decide)⟩

/-- C8: `validate_endpoint_availability` returns `true` (touching nothing)
when the single fresh probe of the address succeeds; when the probe fails it
clears the environment's registry entry, re-runs the sweep, and returns
whether the new sweep holds a reachable endpoint named `endpoint_type` (any
address); and an exception thrown by the probe takes exactly the same
invalidate-and-resweep path, producing the identical result. -/
theorem validate_endpoint_availability_spec
    (environment endpoint_type endpoint_url : String)
    (dH dT : String → Except String (Bool × Option ℚ × Option String))
    (p q : Probe) (now : ℤ) (registry : ConnectivityRegistry) :
    (∀ res, (if endpoint_type = "lcd" || strContains (strToLower endpoint_url) "http"
          then dH endpoint_url else dT endpoint_url) = .ok res → res.1 = true →
      validate_endpoint_availability environment endpoint_type endpoint_url dH dT
          p q now registry = (true, registry)) ∧
    (∀ res, (if endpoint_type = "lcd" || strContains (strToLower endpoint_url) "http"
          then dH endpoint_url else dT endpoint_url) = .ok res → res.1 = false →
      validate_endpoint_availability environment endpoint_type endpoint_url dH dT
          p q now registry =
        ((check_injective_connectivity environment p q now
            (registry.clear_environment_cache environment)).1.any
              (fun pr => pr.1 == endpoint_type && pr.2.reachable),
         (check_injective_connectivity environment p q now
            (registry.clear_environment_cache environment)).2)) ∧
    (∀ msg, (if endpoint_type = "lcd" || strContains (strToLower endpoint_url) "http"
          then dH endpoint_url else dT endpoint_url) = .error msg →
      validate_endpoint_availability environment endpoint_type endpoint_url dH dT
          p q now registry =
        ((check_injective_connectivity environment p q now
            (registry.clear_environment_cache environment)).1.any
              (fun pr => pr.1 == endpoint_type && pr.2.reachable),
         (check_injective_connectivity environment p q now
            (registry.clear_environment_cache environment)).2)) ∧
    (((check_injective_connectivity environment p q now
          (registry.clear_environment_cache environment)).1.any
            (fun pr => pr.1 == endpoint_type && pr.2.reachable)) = true ↔
      ∃ pr ∈ (check_injective_connectivity environment p q now
          (registry.clear_environment_cache environment)).1,
        pr.1 = endpoint_type ∧ pr.2.reachable = true) := by
  refine ⟨?_, ?_, ?_, ?_⟩
  · intro res hd hres
    unfold validate_endpoint_availability
    rw [hd]
    dsimp only
    rw [hres]
    rfl
  · intro res hd hres
    unfold validate_endpoint_availability
    rw [hd]
    dsimp only
    rw [hres]
    rfl
  · intro msg hd
    unfold validate_endpoint_availability
    rw [hd]
  · simp [List.any_eq_true, Bool.and_eq_true, beq_iff_eq]

/-- C8 witness: on concrete inputs, a succeeding direct probe returns true
without touching the registry, and a direct probe that throws takes the
resweep path and (with a succeeding HTTP probe for the resweep) finds the
reachable `lcd` endpoint. -/
theorem validate_endpoint_availability_spec_witness :
    validate_endpoint_availability "testnet" "lcd" "https://x"
        (fun _ => .ok (true, some 1, none)) (fun _ => .ok (true, some 1, none))
        succeedingProbe failingProbe 0 emptyRegistry = (true, emptyRegistry) ∧
    (validate_endpoint_availability "testnet" "lcd" "https://x"
        (fun _ => .error "boom") (fun _ => .error "boom")
        succeedingProbe failingProbe 0 emptyRegistry).1 = true := by
  constructor
  · exact (validate_endpoint_availability_spec "testnet" "lcd" "https://x"
        (fun _ => .ok (true, some 1, none)) (fun _ => .ok (true, some 1, none))
        succeedingProbe failingProbe 0 emptyRegistry).1 (true, some 1, none) rfl rfl
  · have h := (validate_endpoint_availability_spec "testnet" "lcd" "https://x"
        (fun _ => .error "boom") (fun _ => .error "boom")
        succeedingProbe failingProbe 0 emptyRegistry).2.2.1 "boom" rfl
    rw [h]
    decide

/-- Inversion for the cache-hit branch: a `some` pick is exactly the
non-empty reachable filter of the cached results. -/
theorem cached_pick_eq_some {c : SweepResult} {v : Bool}
    {a : List (String × String)} (h : cached_pick c v = some a) :
    a = filter_reachable c ∧ a ≠ [] := by
  unfold cached_pick at h
  by_cases h1 : (!c.isEmpty && v) = true
  · rw [if_pos h1] at h
    by_cases h2 : (filter_reachable c).isEmpty
    · rw [if_pos h2] at h
      exact absurd h (by simp)
    · rw [if_neg h2] at h
      obtain rfl := Option.some.inj h
      exact ⟨rfl, by simpa [List.isEmpty_iff] using h2⟩
  · rw [if_neg h1] at h
    exact absurd h (by simp)

/-- The hardcoded default map is non-empty for every environment. -/
theorem _get_default_endpoints_ne_nil (env : String) :
    _get_default_endpoints env ≠ [] := by
  unfold _get_default_endpoints
  by_cases h : strToLower env = "testnet" <;> simp [h]

/-- When every probe reports unreachable, the reachable filter of a sweep is
empty. -/
theorem filter_reachable_sweep_all_fail (env : String) (p q : Probe) (now : ℤ)
    (reg : ConnectivityRegistry) (hp : ∀ tgt, (p tgt).1 = false)
    (hq : ∀ tgt, (q tgt).1 = false) :
    filter_reachable (check_injective_connectivity env p q now reg).1 = [] := by
  unfold check_injective_connectivity filter_reachable
  rw [List.filterMap_map, List.filterMap_eq_nil_iff]
  intro a _
  by_cases hk : a.2.1 = "http" <;> simp [hk, hp, hq]

/-- Branch normal form of `get_best_endpoints`, relating it to the cache
pick, the sweep, the reachable filter and the defaults. -/
theorem get_best_endpoints_eq (env : String) (p q : Probe) (se : Option String)
    (now : ℤ) (reg : ConnectivityRegistry) :
    get_best_endpoints env p q se now reg =
      match cached_pick (reg.get_results env now).1
          ((reg.get_results env now).2.is_cache_valid env now) with
      | some available => (available, (reg.get_results env now).2)
      | none =>
        match se with
        | some _ => (_get_default_endpoints env, (reg.get_results env now).2)
        | none =>
          if (filter_reachable (check_injective_connectivity env p q now
                (reg.get_results env now).2).1).isEmpty then
            (_get_default_endpoints env,
             (check_injective_connectivity env p q now (reg.get_results env now).2).2)
          else
            (filter_reachable (check_injective_connectivity env p q now
               (reg.get_results env now).2).1,
             (check_injective_connectivity env p q now (reg.get_results env now).2).2) := by
  cases hpick : cached_pick (reg.get_results env now).1
      ((reg.get_results env now).2.is_cache_valid env now) with
  | some a =>
    simp only [get_best_endpoints, hpick]
  | none =>
    cases se with
    | some msg =>
      simp only [get_best_endpoints, check_injective_connectivity_sync, hpick]
    | none =>
      simp only [get_best_endpoints, check_injective_connectivity_sync, hpick]

/-- C1: `get_best_endpoints` never returns an empty map; with a valid
non-empty cache whose reachable filter is non-empty it returns exactly the
`{name: target}` pairs of the reachable cached endpoints; on a cache miss it
runs the synchronous sweep and returns its reachable filter when non-empty,
falling back to the hardcoded defaults when the filter is empty — in
particular when every probe reports unreachable or when the synchronous
sweep itself errors. -/
theorem get_best_endpoints_spec (env : String) (p q : Probe) (se : Option String)
    (now : ℤ) (reg : ConnectivityRegistry) :
    (get_best_endpoints env p q se now reg).1 ≠ [] ∧
    ((reg.get_results env now).1.isEmpty = false →
      (reg.get_results env now).2.is_cache_valid env now = true →
      (filter_reachable (reg.get_results env now).1).isEmpty = false →
      get_best_endpoints env p q se now reg
        = (filter_reachable (reg.get_results env now).1, (reg.get_results env now).2)) ∧
    (cached_pick (reg.get_results env now).1
        ((reg.get_results env now).2.is_cache_valid env now) = none →
      se = none →
      get_best_endpoints env p q se now reg
        = (if (filter_reachable (check_injective_connectivity env p q now
                  (reg.get_results env now).2).1).isEmpty then
             (_get_default_endpoints env,
              (check_injective_connectivity env p q now (reg.get_results env now).2).2)
           else
             (filter_reachable (check_injective_connectivity env p q now
                (reg.get_results env now).2).1,
              (check_injective_connectivity env p q now (reg.get_results env now).2).2))) ∧
    (cached_pick (reg.get_results env now).1
        ((reg.get_results env now).2.is_cache_valid env now) = none →
      ∀ msg, se = some msg →
      get_best_endpoints env p q se now reg
        = (_get_default_endpoints env, (reg.get_results env now).2)) ∧
    (cached_pick (reg.get_results env now).1
        ((reg.get_results env now).2.is_cache_valid env now) = none →
      (∀ tgt, (p tgt).1 = false) → (∀ tgt, (q tgt).1 = false) →
      (get_best_endpoints env p q se now reg).1 = _get_default_endpoints env) := by
  refine ⟨?_, ?_, ?_, ?_, ?_⟩
  · rw [get_best_endpoints_eq]
    cases hpick : cached_pick (reg.get_results env now).1
        ((reg.get_results env now).2.is_cache_valid env now) with
    | some a => exact (cached_pick_eq_some hpick).2
    | none =>
      cases se with
      | some msg => exact _get_default_endpoints_ne_nil env
      | none =>
        by_cases hf : (filter_reachable (check_injective_connectivity env p q now
            (reg.get_results env now).2).1).isEmpty
        · rw [if_pos hf]
          exact _get_default_endpoints_ne_nil env
        · rw [if_neg hf]
          simpa [List.isEmpty_iff] using hf
  · intro h1 h2 h3
    have hpick : cached_pick (reg.get_results env now).1
        ((reg.get_results env now).2.is_cache_valid env now)
          = some (filter_reachable (reg.get_results env now).1) := by
      unfold cached_pick
      rw [if_pos (by simp [h1, h2]), if_neg (by simp [h3])]
    rw [get_best_endpoints_eq, hpick]
  · intro hpick hse
    subst hse
    rw [get_best_endpoints_eq, hpick]
  · intro hpick msg hse
    subst hse
    rw [get_best_endpoints_eq, hpick]
  · intro hpick hp hq
    rw [get_best_endpoints_eq, hpick]
    cases se with
    | some msg => rfl
    | none =>
      rw [if_pos (by simp [List.isEmpty_iff,
        filter_reachable_sweep_all_fail env p q now (reg.get_results env now).2 hp hq])]

/-- C1 witness: with an empty registry (cache miss), probes that all fail,
and no sync error, `get_best_endpoints "testnet"` returns exactly the
hardcoded defaults, which are non-empty. -/
theorem get_best_endpoints_spec_witness :
    (get_best_endpoints "testnet" failingProbe failingProbe none 0 emptyRegistry).1
      = _get_default_endpoints "testnet" ∧
    (get_best_endpoints "testnet" failingProbe failingProbe none 0 emptyRegistry).1
      ≠ [] :=
  ⟨(get_best_endpoints_spec "testnet" failingProbe failingProbe none 0
      emptyRegistry).2.2.2.2 (by decide) (fun _ => rfl) (fun _ => rfl),
   (get_best_endpoints_spec "testnet" failingProbe failingProbe none 0
      emptyRegistry).1⟩
